import Mathlib

/-!
Verification development for the castr-api control module
(`src/index.js`).  The JavaScript class `CastrAPIInstance` is shallowly
embedded: its instance fields become the record `InstanceState`, JS `Map`
objects become association lists with JS `Map.set` update-in-place
semantics, and the observable side effects of each method (log lines,
issued API requests, status updates, published derived views) are returned
explicitly.  JS `undefined` is modelled with `Option`; JS truthiness of
`x || d` and `!x` on possibly-undefined booleans/strings is modelled by
dedicated helpers.  lodash `_.isEqual` compares plain data structurally
but compares function values by reference; each closure constructed by
`initActions`/`initFeedbacks` is therefore modelled by a fresh allocation
number drawn from a counter in the state.
-/

/-- Log severity of a `this.log(level, message)` call. -/
inductive LogLevel
  | debug
  | warn
  | error
deriving DecidableEq

/-- Connection status values used by the module (`InstanceStatus`). -/
inductive InstanceStatus
  | Unknown
  | Ok
  | AuthenticationFailure
  | UnknownError
deriving DecidableEq

/-- JS `x || false` on a possibly-undefined boolean field. -/
def jsOrFalse (o : Option Bool) : Bool := o.getD false

/-- JS `!x` on a possibly-undefined boolean field (`!undefined = true`). -/
def jsNot (o : Option Bool) : Bool := !(o.getD false)

/-- JS `x || d` on a possibly-undefined string: both `undefined` and the
empty string are falsy. -/
def jsOrString (o : Option String) (d : String) : String :=
  match o with
  | none => d
  | some s => if s = "" then d else s

/-- JS template interpolation of a possibly-undefined value renders the
literal text `undefined`. -/
def jsShow (o : Option String) : String := o.getD "undefined"

/-- The `ingest` sub-object of a stream record (`{server, key}`). -/
structure Ingest where
  server : Option String
  key : Option String
deriving DecidableEq

/-- One destination platform of a stream, as delivered by the remote API. -/
structure PlatformRecord where
  _id : String
  name : String
  enabled : Option Bool
  broadcasting_status : Option String
deriving DecidableEq

/-- One stream record, as delivered by the remote API.  `ingest := none`
models a record whose `ingest` object is missing (accessing
`stream.ingest.server` then throws a `TypeError`).  `platforms := none`
models a missing or non-array `platforms` field (the source guards it with
a typeof-object plus Array.isArray test). -/
structure StreamRecord where
  _id : String
  name : String
  enabled : Option Bool
  broadcasting_status : Option String
  ingest : Option Ingest
  platforms : Option (List PlatformRecord)
deriving DecidableEq

/-- Body of the `GET live_streams` response: `{docs: [...]}`. -/
structure LiveStreamsResponse where
  docs : List StreamRecord
deriving DecidableEq

/-! ### JS `Map` as an association list

JS `Map.set` overwrites the value of an existing key in place and appends
a new key at the end; keys stay unique.  `mapGet?`/`mapHas` are `Map.get`
and `Map.has`.  The same model serves the plain-object property tables
(`variableValues`, `this.platforms`), whose assignment semantics agree. -/

/-- JS `Map.has`. -/
def mapHas (m : List (String × α)) (k : String) : Bool :=
  m.any (fun p => p.1 = k)

/-- JS `Map.get` (`none` = `undefined`). -/
def mapGet? (m : List (String × α)) (k : String) : Option α :=
  (m.find? (fun p => p.1 = k)).map (fun p => p.2)

/-- JS `Map.set`: update in place when the key exists, append otherwise. -/
def mapSet (m : List (String × α)) (k : String) (v : α) : List (String × α) :=
  if m.any (fun p => p.1 = k) then
    m.map (fun p => if p.1 = k then (k, v) else p)
  else
    m ++ [(k, v)]

/-- `Map.has` applied to a possibly-undefined key (`Map.has undefined` is
false for the string-keyed maps built by this module). -/
def mapHasOpt (m : List (String × α)) (k : Option String) : Bool :=
  match k with
  | some s => mapHas m s
  | none => false

/-- `Map.get` applied to a possibly-undefined key. -/
def mapGetOpt? (m : List (String × α)) (k : Option String) : Option α :=
  match k with
  | some s => mapGet? m s
  | none => none

/-! ### JS `String.prototype.split` with a string separator

The library function `String.splitOn` is defined by well-founded recursion and does not
reduce definitionally, so the split is embedded as a fuel-indexed
structural recursion over the character list (fuel = length of the input,
which always suffices because every step consumes at least one character). -/

def splitFuel (sep : List Char) : Nat → List Char → List Char → List (List Char)
  | _, [], cur => [cur.reverse]
  | 0, s, cur => [cur.reverse ++ s]
  | fuel + 1, c :: rest, cur =>
    if sep.isPrefixOf (c :: rest) then
      cur.reverse :: splitFuel sep fuel (List.drop sep.length (c :: rest)) []
    else
      splitFuel sep fuel rest (c :: cur)

/-- JS `s.split(sep)` for a non-empty string separator: splits at each
leftmost, non-overlapping occurrence of `sep`. -/
def jsSplit (s sep : String) : List String :=
  (splitFuel sep.toList s.toList.length s.toList []).map (fun l => String.mk l)

/-! ### Association-list map lemmas -/

theorem mapSet_any_key (m : List (String × α)) (k k' : String) (v : α) :
    ((m.map (fun p => if p.1 = k' then (k', v) else p)).any (fun p => p.1 = k)) =
      (m.any (fun p => p.1 = k)) := by
  induction m with
  | nil => rfl
  | cons p t ih =>
    by_cases hp : p.1 = k'
    · simp [hp, ih]
    · simp only [List.map_cons, if_neg hp, List.any_cons, ih]

theorem mapHas_set_self (m : List (String × α)) (k : String) (v : α) :
    mapHas (mapSet m k v) k = true := by
  unfold mapHas mapSet
  by_cases h : m.any (fun p => p.1 = k) = true
  · rw [if_pos h, mapSet_any_key]
    exact h
  · rw [if_neg h]
    simp

theorem mapHas_set_mono (m : List (String × α)) (k k' : String) (v : α)
    (h : mapHas m k = true) : mapHas (mapSet m k' v) k = true := by
  unfold mapHas at h
  unfold mapHas mapSet
  by_cases hany : m.any (fun p => p.1 = k') = true
  · rw [if_pos hany, mapSet_any_key]
    exact h
  · rw [if_neg hany]
    simp only [List.any_append, h, Bool.true_or]

theorem find?_map_set (m : List (String × α)) (k : String) (v : α)
    (h : m.any (fun p => p.1 = k) = true) :
    (m.map (fun p => if p.1 = k then (k, v) else p)).find? (fun p => p.1 = k) = some (k, v) := by
  induction m with
  | nil => simp at h
  | cons p t ih =>
    by_cases hp : p.1 = k
    · rw [List.map_cons, if_pos hp, List.find?_cons_of_pos]
      simp
    · have ht : t.any (fun p => p.1 = k) = true := by
        simpa [List.any_cons, hp] using h
      rw [List.map_cons, if_neg hp, List.find?_cons_of_neg]
      · exact ih ht
      · simp [hp]

theorem mapGet?_set_self (m : List (String × α)) (k : String) (v : α) :
    mapGet? (mapSet m k v) k = some v := by
  unfold mapGet? mapSet
  by_cases h : m.any (fun p => p.1 = k) = true
  · rw [if_pos h, find?_map_set m k v h]
    rfl
  · rw [if_neg h]
    have hfind : m.find? (fun p => (decide (p.1 = k))) = none := by
      rw [List.find?_eq_none]
      intro p hp hcontra
      have hfalse : m.any (fun p => decide (p.1 = k)) = false := by
        cases hh : m.any (fun p => decide (p.1 = k)) with
        | true => exact absurd hh h
        | false => rfl
      exact (List.any_eq_false.mp hfalse) p hp hcontra
    rw [List.find?_append, hfind]
    simp

theorem find?_map_set_ne (m : List (String × α)) (k k' : String) (v : α)
    (h : k ≠ k') :
    (m.map (fun p => if p.1 = k' then (k', v) else p)).find? (fun p => p.1 = k) =
      m.find? (fun p => p.1 = k) := by
  induction m with
  | nil => rfl
  | cons p t ih =>
    by_cases hp : p.1 = k'
    · have hpk : ¬ p.1 = k := by rw [hp]; exact fun hh => h hh.symm
      rw [List.map_cons, if_pos hp, List.find?_cons_of_neg, List.find?_cons_of_neg, ih]
      · simp only [decide_eq_true_eq]
        exact hpk
      · simp only [decide_eq_true_eq]
        exact fun hh => h hh.symm
    · rw [List.map_cons, if_neg hp]
      by_cases hk : p.1 = k
      · rw [List.find?_cons_of_pos, List.find?_cons_of_pos] <;> simp [hk]
      · rw [List.find?_cons_of_neg, List.find?_cons_of_neg, ih] <;> simp [hk]

theorem mapGet?_set_ne (m : List (String × α)) (k k' : String) (v : α)
    (h : k ≠ k') : mapGet? (mapSet m k' v) k = mapGet? m k := by
  unfold mapGet? mapSet
  by_cases hany : m.any (fun p => p.1 = k') = true
  · rw [if_pos hany, find?_map_set_ne m k k' v h]
  · rw [if_neg hany, List.find?_append]
    have hone : List.find? (fun p => (decide (p.1 = k))) [(k', v)] = none := by
      rw [List.find?_eq_none]
      intro p hp
      simp only [List.mem_singleton] at hp
      subst hp
      simp only [decide_eq_true_eq]
      exact fun hh => h hh.symm
    rw [hone]
    cases m.find? (fun p => (decide (p.1 = k))) <;> rfl

theorem mapHas_false_get (m : List (String × α)) (k : String)
    (h : mapHas m k = false) : mapGet? m k = none := by
  unfold mapHas at h
  unfold mapGet?
  have hfind : m.find? (fun p => (decide (p.1 = k))) = none := by
    rw [List.find?_eq_none]
    intro p hp hcontra
    exact (List.any_eq_false.mp h) p hp hcontra
  simp [hfind]

/-! ### Derived views and state -/

/-- A `{id, label}` dropdown choice. -/
structure DropdownChoice where
  id : String
  label : String
deriving DecidableEq

/-- A `{variableId, name}` variable definition. -/
structure VariableDefinition where
  variableId : String
  name : String
deriving DecidableEq

/-- A variable value (the module publishes strings and booleans). -/
inductive VarValue
  | str (s : String)
  | bool (b : Bool)
deriving DecidableEq

/-- Entry of `this.platforms[platformId] = {stream, platform}`. -/
structure PlatformXref where
  stream : String
  platform : String
deriving DecidableEq

/-- One entry of `action.options.platforms`:
`{id: platform._id, enabled: platform.enabled}`. -/
structure PlatformEntry where
  id : String
  enabled : Option Bool
deriving DecidableEq

/-- One action definition from `initActions`.  Static field metadata
(labels, tooltips, field types) never varies between recomputations and is
elided; `optionChoices` carries the choice lists of the dropdown options,
which do vary with the Directory.  `callbackId` models the identity of the
freshly constructed arrow-function callback: lodash `_.isEqual` compares
functions by reference, so two closures built by different calls are never
equal. -/
structure ActionDef where
  name : String
  label : String
  optionChoices : List (List DropdownChoice)
  callbackId : Nat
deriving DecidableEq

/-- The object passed to `setActionDefinitions`. -/
structure ActionsView where
  enableStream : ActionDef
  enablePlatform : ActionDef
deriving DecidableEq

/-- The data part of an action definition (everything `_.isEqual` compares
structurally, i.e. all but the callback reference). -/
def ActionDef.data (a : ActionDef) : String × String × List (List DropdownChoice) :=
  (a.name, a.label, a.optionChoices)

/-- The data part of the actions view. -/
def ActionsView.data (v : ActionsView) :=
  (v.enableStream.data, v.enablePlatform.data)

/-- The `streamEnabled` feedback definition from `initFeedbacks`
(colorpicker defaults are constants and elided; `callbackId` as in
`ActionDef`). -/
structure FeedbackDef where
  name : String
  description : String
  optionChoices : List (List DropdownChoice)
  callbackId : Nat
deriving DecidableEq

/-- The object passed to `setFeedbackDefinitions`. -/
structure FeedbacksView where
  streamEnabled : FeedbackDef
deriving DecidableEq

/-- The instance fields of `CastrAPIInstance`.  `nextFnId` is the closure
allocation counter described in the header comment. -/
structure InstanceState where
  streams : List (String × StreamRecord)
  streamsByName : List (String × StreamRecord)
  variableDefinitionsCache : Option (List VariableDefinition)
  variableValuesCache : Option (List (String × VarValue))
  statusCache : Option InstanceStatus
  actionsCache : Option ActionsView
  feedbacksCache : Option FeedbacksView
  platforms : List (String × PlatformXref)
  platformsDropdown : List DropdownChoice
  nextFnId : Nat
deriving DecidableEq

/-- Field initializers of `CastrAPIInstance`. -/
def initialState : InstanceState where
  streams := []
  streamsByName := []
  variableDefinitionsCache := none
  variableValuesCache := none
  statusCache := none
  actionsCache := none
  feedbacksCache := none
  platforms := []
  platformsDropdown := []
  nextFnId := 0

/-- `updateStatusCached(status, message)`: forwards to `updateStatus` only
when the status differs from the cached one.  Returns the new cache and
the `updateStatus` calls made (zero or one). -/
def updateStatusCached (cache : Option InstanceStatus) (status : InstanceStatus)
    (message : Option String) :
    Option InstanceStatus × List (InstanceStatus × Option String) :=
  if cache = some status then
    (cache, [])
  else
    (some status, [(status, message)])

/-- Outcome of the `fetch` inside `callAPI`: either an HTTP response or a
network-level exception. -/
inductive FetchOutcome (α : Type)
  | response (status : Nat) (statusText : String) (body : α)
  | networkError (err : String)
deriving DecidableEq

/-- `Response.ok` of the fetch API: status in the 2xx range. -/
def isOkStatus (status : Nat) : Bool :=
  decide (200 ≤ status) && decide (status < 300)

/-- A failed fetch: network exception or non-success HTTP status. -/
def fetchFailed : FetchOutcome α → Bool
  | .networkError _ => true
  | .response s _ _ => !(isOkStatus s)

/-- Result of the response-handling half of `callAPI`: the new status
cache, the `updateStatus` calls, the log lines, and the settled promise
(Except.error = rejection). -/
structure CallOutcome (α : Type) where
  statusCache : Option InstanceStatus
  statusUpdates : List (InstanceStatus × Option String)
  logs : List (LogLevel × String)
  result : Except String α

/-- `callAPI` response handling.  Request construction (URL, Basic-auth
header, body serialization) is modelled by the `APICall` records emitted
by the callers; this function embeds the `.then`/`.catch` continuation:
non-success statuses are classified (401 = authentication failure, other
= generic failure), the connection status is updated through the
deduplicating cache, and the promise is rejected with the status text
(the following `resolve(res.json())` is a no-op because a promise settles
only once); a network error rejects with the underlying error. -/
def callAPI (cache : Option InstanceStatus) : FetchOutcome α → CallOutcome α
  | .networkError err => ⟨cache, [], [], .error err⟩
  | .response status statusText body =>
    if !(isOkStatus status) then
      if status = 401 then
        ⟨(updateStatusCached cache .AuthenticationFailure (some statusText)).1,
          (updateStatusCached cache .AuthenticationFailure (some statusText)).2,
          [(.error, "API Authorization failed: " ++ toString status ++ " " ++ statusText)],
          .error statusText⟩
      else
        ⟨(updateStatusCached cache .UnknownError (some statusText)).1,
          (updateStatusCached cache .UnknownError (some statusText)).2,
          [(.error, "API Error: " ++ toString status ++ " " ++ statusText)],
          .error statusText⟩
    else
      ⟨cache, [], [(.debug, "API Response: " ++ toString status ++ " " ++ statusText)], .ok body⟩

/-- An API request issued through `callAPI` (`bodyEnabled` is the
`{enabled: ...}` body of the PATCH calls; `none` = no body). -/
structure APICall where
  method : String
  endpoint : String
  pathParams : Option String
  bodyEnabled : Option Bool
deriving DecidableEq

/-! ### Directory rebuild (the `then` branch of `pollAPI`) -/

/-- The sanitization in `addVar`: replace every character outside
`[a-zA-Z0-9_-]` with an underscore. -/
def sanitizeId (s : String) : String :=
  s.map (fun c => if c.isAlpha || c.isDigit || c = '_' || c = '-' then c else '_')

/-- Accumulator of the rebuild loop: the Directory fields being rebuilt,
the variable view under construction, and the log lines emitted. -/
structure RebuildAcc where
  streams : List (String × StreamRecord)
  streamsByName : List (String × StreamRecord)
  platforms : List (String × PlatformXref)
  platformsDropdown : List DropdownChoice
  variableDefinitions : List VariableDefinition
  variableValues : List (String × VarValue)
  logs : List (LogLevel × String)
deriving DecidableEq

/-- The cleared accumulator (`this.streams.clear()` etc.). -/
def emptyAcc : RebuildAcc := ⟨[], [], [], [], [], [], []⟩

/-- `addVar(id, name, value)`: sanitize the id, push a definition, set the
value. -/
def addVar (acc : RebuildAcc) (id name : String) (value : VarValue) : RebuildAcc :=
  let id := sanitizeId id
  { acc with
    variableDefinitions := acc.variableDefinitions ++ [⟨id, name⟩]
    variableValues := mapSet acc.variableValues id value }

/-- Comparator of `platformsDropdown.sort((a, b) => a.id.localeCompare(b.id))`,
modelled as lexicographic string order. -/
def dropdownLe (a b : DropdownChoice) : Bool := decide (a.id ≤ b.id)

/-- Body of the inner `for (const platform of stream.platforms)` loop. -/
def processPlatform (streamName streamId : String) (acc : RebuildAcc)
    (platform : PlatformRecord) : RebuildAcc :=
  let acc := addVar acc ("stream_" ++ streamName ++ "_platform_" ++ platform.name ++ "_status")
    ("Stream " ++ streamName ++ ", platform " ++ platform.name ++ " status")
    (.str (jsOrString platform.broadcasting_status "undefined"))
  let acc := addVar acc ("stream_" ++ streamName ++ "_platform_" ++ platform.name ++ "_enabled")
    ("Stream " ++ streamName ++ ", platform " ++ platform.name ++ " enabled")
    (.bool (jsOrFalse platform.enabled))
  let platformId := streamName ++ " :: " ++ platform.name
  { acc with
    platformsDropdown := acc.platformsDropdown ++ [⟨platformId, platformId⟩]
    platforms := mapSet acc.platforms platformId ⟨streamId, platform._id⟩ }

/-- Body of the outer `for (const stream of json.docs)` loop.  The two
`Map.set` calls precede the `try` block; inside the `try`, the access
`stream.ingest.server` throws when `ingest` is missing, so only the three
`addVar` calls before it take effect for such a record, the error is
logged, and the iteration ends (no dropdown entries, no platform table
entries, no sort). -/
def processStream (acc : RebuildAcc) (stream : StreamRecord) : RebuildAcc :=
  let acc := { acc with
    streams := mapSet acc.streams stream._id stream
    streamsByName := mapSet acc.streamsByName stream.name stream }
  let acc := addVar acc ("stream_" ++ stream._id ++ "_name")
    ("Stream " ++ stream._id ++ " Name") (.str stream.name)
  let acc := addVar acc ("stream_" ++ stream._id ++ "_enabled")
    ("Stream " ++ stream._id ++ " Enabled") (.bool (jsOrFalse stream.enabled))
  let acc := addVar acc ("stream_" ++ stream._id ++ "_status")
    ("Stream " ++ stream._id ++ " Status") (.str (jsOrString stream.broadcasting_status "undefined"))
  match stream.ingest with
  | none =>
    { acc with logs := acc.logs ++ [(.error, "failed to parse stream data: TypeError")] }
  | some ingest =>
    let acc := addVar acc ("stream_" ++ stream._id ++ "_ingest_server")
      ("Stream " ++ stream._id ++ " ingest server") (.str (jsOrString ingest.server ""))
    let acc := addVar acc ("stream_" ++ stream._id ++ "_ingest_key")
      ("Stream " ++ stream._id ++ " ingest key") (.str (jsOrString ingest.key ""))
    let acc := addVar acc ("stream_" ++ stream.name ++ "_id")
      ("Stream " ++ stream.name ++ " ID") (.str stream._id)
    let acc := addVar acc ("stream_" ++ stream.name ++ "_enabled")
      ("Stream " ++ stream.name ++ " Enabled") (.bool (jsOrFalse stream.enabled))
    let acc := addVar acc ("stream_" ++ stream.name ++ "_status")
      ("Stream " ++ stream.name ++ " Status") (.str (jsOrString stream.broadcasting_status "undefined"))
    let acc := addVar acc ("stream_" ++ stream.name ++ "_ingest_server")
      ("Stream " ++ stream.name ++ " ingest server") (.str (jsOrString ingest.server ""))
    let acc := addVar acc ("stream_" ++ stream.name ++ "_ingest_key")
      ("Stream " ++ stream.name ++ " ingest key") (.str (jsOrString ingest.key ""))
    let allId := stream.name ++ " :: *ALL*"
    let acc := { acc with platformsDropdown := acc.platformsDropdown ++ [⟨allId, allId⟩] }
    let acc := (stream.platforms.getD []).foldl (processPlatform stream.name stream._id) acc
    { acc with platformsDropdown := acc.platformsDropdown.mergeSort dropdownLe }

/-- The whole rebuild loop starting from the cleared accumulator. -/
def rebuildAcc (docs : List StreamRecord) : RebuildAcc :=
  docs.foldl processStream emptyAcc

/-- The dropdown entries one well-formed stream record contributes: its
wildcard entry followed by one entry per platform, in platform order. -/
def dropdownEntries (r : StreamRecord) : List DropdownChoice :=
  ⟨r.name ++ " :: *ALL*", r.name ++ " :: *ALL*"⟩ ::
    (r.platforms.getD []).map
      (fun pl => ⟨r.name ++ " :: " ++ pl.name, r.name ++ " :: " ++ pl.name⟩)

/-- Last record of `docs` carrying the given name (the record a
last-one-wins by-name map associates with that name). -/
def lastWins (docs : List StreamRecord) (n : String) : Option StreamRecord :=
  docs.foldl (fun o r => if r.name = n then some r else o) none

/-! ### Derived-view publishing -/

/-- Choices of `streamField()`: one entry per stream name followed by one
entry per stream id. -/
def streamFieldChoices (st : InstanceState) : List DropdownChoice :=
  (st.streams.map (fun p => ⟨p.2.name, p.2.name⟩)) ++
    (st.streams.map (fun p => ⟨p.1, p.1⟩))

/-- Choices of the on/off/toggle dropdown (`Object.keys(OnOffToggle)` in
declaration order). -/
def onOffToggleChoices : List DropdownChoice :=
  [⟨"enable", "enable"⟩, ⟨"disable", "disable"⟩, ⟨"toggle", "toggle"⟩]

/-- `initActions()`: build the action definitions (with two fresh callback
closures), publish through `setActionDefinitions` only when `_.isEqual`
finds them different from the cache.  Returns the new state and the list
of publishes made (zero or one). -/
def initActions (st : InstanceState) : InstanceState × List ActionsView :=
  let newActions : ActionsView :=
    { enableStream :=
        { name := "Enable Stream", label := "Enable Stream"
          optionChoices := [streamFieldChoices st, onOffToggleChoices]
          callbackId := st.nextFnId }
      enablePlatform :=
        { name := "Enable Platform", label := "Enable Platform"
          optionChoices := [st.platformsDropdown, onOffToggleChoices]
          callbackId := st.nextFnId + 1 } }
  let st := { st with nextFnId := st.nextFnId + 2 }
  if st.actionsCache = some newActions then
    (st, [])
  else
    ({ st with actionsCache := some newActions }, [newActions])

/-- `initFeedbacks()`: same publish-on-inequality pattern for the
`streamEnabled` feedback definition (one fresh callback closure). -/
def initFeedbacks (st : InstanceState) : InstanceState × List FeedbacksView :=
  let fb : FeedbacksView :=
    { streamEnabled :=
        { name := "Stream Enabled", description := "Indicate if the stream is enabled"
          optionChoices := [streamFieldChoices st]
          callbackId := st.nextFnId } }
  let st := { st with nextFnId := st.nextFnId + 1 }
  if st.feedbacksCache = some fb then
    (st, [])
  else
    ({ st with feedbacksCache := some fb }, [fb])

/-- Observable effects of one `pollAPI` run. -/
structure PollEffects where
  logs : List (LogLevel × String)
  statusUpdates : List (InstanceStatus × Option String)
  variableDefsPublished : List (List VariableDefinition)
  variableValsPublished : List (List (String × VarValue))
  actionsPublished : List ActionsView
  feedbacksPublished : List FeedbacksView
deriving DecidableEq

/-- Diff-publish of the variable definitions view: republish and cache
only when `_.isEqual` finds the new value different from the cache. -/
def publishDefs (st : InstanceState) (defs : List VariableDefinition) :
    InstanceState × List (List VariableDefinition) :=
  if st.variableDefinitionsCache = some defs then
    (st, [])
  else
    ({ st with variableDefinitionsCache := some defs }, [defs])

/-- Diff-publish of the variable values view: on inequality, republish,
cache, and re-run `initActions` and `initFeedbacks` (plus
`checkFeedbacks`, which has no modelled effect). -/
def publishVals (st : InstanceState) (vals : List (String × VarValue)) :
    InstanceState × List (List (String × VarValue)) × List ActionsView × List FeedbacksView :=
  if st.variableValuesCache = some vals then
    (st, [], [], [])
  else
    let st1 := { st with variableValuesCache := some vals }
    let st2 := (initActions st1).1
    let st3 := (initFeedbacks st2).1
    (st3, [vals], (initActions st1).2, (initFeedbacks st2).2)

/-- The `then` callback of `pollAPI`: clear and rebuild the Directory,
then diff-publish the derived views (variable definitions, variable
values — the latter also re-running `initActions`/`initFeedbacks` — and
finally set the connection status to Ok through the deduplicating cache). -/
def pollRebuild (st : InstanceState) (json : LiveStreamsResponse) :
    InstanceState × PollEffects :=
  let acc := rebuildAcc json.docs
  let st1 := { st with
    streams := acc.streams
    streamsByName := acc.streamsByName
    platforms := acc.platforms
    platformsDropdown := acc.platformsDropdown }
  let d := publishDefs st1 acc.variableDefinitions
  let v := publishVals d.1 acc.variableValues
  let u := updateStatusCached v.1.statusCache .Ok none
  ({ v.1 with statusCache := u.1 },
    { logs := (.debug, "pollAPI() live_streams response") :: acc.logs
      statusUpdates := u.2
      variableDefsPublished := d.2
      variableValsPublished := v.2.1
      actionsPublished := v.2.2.1
      feedbacksPublished := v.2.2.2 })

/-- `pollAPI()`: issue `GET live_streams` and either run the rebuild on
the parsed body or log the failure, leaving all Directory fields as they
were. -/
def pollAPI (st : InstanceState) (res : FetchOutcome LiveStreamsResponse) :
    InstanceState × PollEffects :=
  let out := callAPI st.statusCache res
  match out.result with
  | .error _ =>
    ({ st with statusCache := out.statusCache },
      { logs := out.logs ++ [(.error, "failed to read stream list")]
        statusUpdates := out.statusUpdates
        variableDefsPublished := []
        variableValsPublished := []
        actionsPublished := []
        feedbacksPublished := [] })
  | .ok json =>
    ((pollRebuild { st with statusCache := out.statusCache } json).1,
      { (pollRebuild { st with statusCache := out.statusCache } json).2 with
        logs := out.logs ++ (pollRebuild { st with statusCache := out.statusCache } json).2.logs
        statusUpdates := out.statusUpdates ++
          (pollRebuild { st with statusCache := out.statusCache } json).2.statusUpdates })

/-! ### Reference resolution and command handlers -/

/-- The mutable `action.options` object of an action/feedback event. -/
structure ActionOptions where
  stream : Option String
  platform : Option String
  platforms : Option (List PlatformEntry)
  onoff : Option String
deriving DecidableEq

/-- `resolveActionOptions(action, context)`, with `expand` standing for
`context.parseVariablesInString`.  The `stream` token is kept when it is a
known id, translated when it is a known name, passed through with a
warning otherwise.  A `platform` compound token is split on the literal
separator; its stream part is looked up by name only: on success the
matching platforms (or all of them for the `*ALL*` wildcard) are
collected, on failure an error is logged and the function returns early
(skipping the final debug log and leaving `platforms` untouched).
`resolveStreamToken` is the first half (the `stream` field). -/
def resolveStreamToken (st : InstanceState) (expand : String → String)
    (action : ActionOptions) : ActionOptions × List (LogLevel × String) :=
  match action.stream with
  | none => (action, [])
  | some s0 =>
    let s := expand s0
    if mapHas st.streams s then
      ({ action with stream := some s }, [])
    else
      match mapGet? st.streamsByName s with
      | some strm => ({ action with stream := some strm._id }, [])
      | none =>
        ({ action with stream := some s },
          [(.warn, "Stream name " ++ s ++ " not found, passing as-is to API")])

def resolveActionOptions (st : InstanceState) (expand : String → String)
    (action : ActionOptions) : ActionOptions × List (LogLevel × String) :=
  let r := resolveStreamToken st expand action
  match r.1.platform with
  | none =>
    (r.1, r.2 ++ [(.debug, "resolveActionOptions() - resolved action")])
  | some p0 =>
    let p := expand p0
    let parts := jsSplit p " :: "
    let streamName := parts.headD ""
    let platformName := parts[1]?
    match mapGet? st.streamsByName streamName with
    | some strm =>
      let entries := ((strm.platforms.getD []).filter
          (fun pl => platformName == some pl.name || platformName == some "*ALL*")).map
        (fun pl => ({ id := pl._id, enabled := pl.enabled } : PlatformEntry))
      ({ r.1 with stream := some strm._id, platform := some p, platforms := some entries },
        r.2 ++ [(.debug, "resolveActionOptions() - resolved action")])
    | none =>
      ({ r.1 with platform := some p },
        r.2 ++ [(.error, "resolveActionOptions() - platform " ++ streamName ++ " not found")])

/-- Observable behaviour of one command-handler invocation: the API
requests issued, the log lines, and whether the handler aborted with a
thrown `TypeError` (rejecting the async function before any request). -/
structure HandlerResult where
  calls : List APICall
  logs : List (LogLevel × String)
  crashed : Bool
deriving DecidableEq

/-- `actionEnableStream(action, context)`: resolve the options, compute
the target state (`toggle` negates the flag of the Directory record when the
stream id is known and logs an error otherwise — the code then still falls
through), and issue one PATCH with `{enabled: target}`.  The PATCH
response handling (debug log plus forced re-poll) is outside the scope of
one invocation and not modelled. -/
def actionEnableStream (st : InstanceState) (expand : String → String)
    (action0 : ActionOptions) : HandlerResult :=
  let action := (resolveActionOptions st expand action0).1
  let rlogs := (resolveActionOptions st expand action0).2
  let enabled :=
    if action.onoff = some "enable" then true
    else if action.onoff = some "disable" then false
    else if action.onoff = some "toggle" then
      match mapGetOpt? st.streams action.stream with
      | some strm => jsNot strm.enabled
      | none => false
    else false
  let tlogs :=
    if action.onoff = some "toggle" then
      match mapGetOpt? st.streams action.stream with
      | some _ => []
      | none =>
        [(LogLevel.error,
          "actionEnableStream(): Stream " ++ jsShow action.stream ++ " not found, cannot toggle")]
    else []
  { calls := [{ method := "PATCH", endpoint := "live_streams", pathParams := action.stream,
                bodyEnabled := some enabled }]
    logs := (LogLevel.debug, "actionEnableStream() - action") :: (rlogs ++ tlogs)
    crashed := false }

/-- `actionEnablePlatform(action, context)`: resolve the options, then for
each resolved platform compute the target state (toggle negates that
the cached flag of that platform) and issue one PATCH to its nested
sub-resource.  When resolution failed, `action.options.platforms` is still
`undefined` and the `for...of` over it throws a `TypeError`, so no PATCH
is issued. -/
def actionEnablePlatform (st : InstanceState) (expand : String → String)
    (action0 : ActionOptions) : HandlerResult :=
  let action := (resolveActionOptions st expand action0).1
  let rlogs := (resolveActionOptions st expand action0).2
  match action.platforms with
  | none =>
    { calls := []
      logs := (LogLevel.debug, "actionEnablePlatform() - action") :: rlogs
      crashed := true }
  | some ps =>
    { calls := ps.map (fun pl =>
        { method := "PATCH", endpoint := "live_streams"
          pathParams := some (jsShow action.stream ++ "/platforms/" ++ pl.id)
          bodyEnabled := some
            (if action.onoff = some "enable" then true
             else if action.onoff = some "disable" then false
             else if action.onoff = some "toggle" then jsNot pl.enabled
             else false) })
      logs := (LogLevel.debug, "actionEnablePlatform() - action") :: rlogs
      crashed := false }

/-! ### Basic facts about resolution and the handlers -/

theorem resolveStreamToken_onoff (st : InstanceState) (expand : String → String)
    (a : ActionOptions) :
    ((resolveStreamToken st expand a).1).onoff = a.onoff ∧
    ((resolveStreamToken st expand a).1).platform = a.platform ∧
    ((resolveStreamToken st expand a).1).platforms = a.platforms := by
  unfold resolveStreamToken
  rcases a with ⟨s, p, pfs, oo⟩
  cases s with
  | none => exact ⟨rfl, rfl, rfl⟩
  | some s0 =>
    simp only []
    split
    · exact ⟨rfl, rfl, rfl⟩
    · split
      · exact ⟨rfl, rfl, rfl⟩
      · exact ⟨rfl, rfl, rfl⟩

theorem resolveActionOptions_onoff (st : InstanceState) (expand : String → String)
    (a : ActionOptions) :
    ((resolveActionOptions st expand a).1).onoff = a.onoff := by
  have h := resolveStreamToken_onoff st expand a
  simp only [resolveActionOptions]
  split
  · exact h.1
  · split
    · exact h.1
    · exact h.1

/-! ### Claim theorems -/

/-- Claim C9: every Remote Client call that receives a non-success HTTP
status classifies 401 as an authentication failure and any other
non-success status as a generic API failure, updates the connection
status deduplicated against the previous one, and rejects the promise
with the status text. -/
theorem callAPI_nonsuccess_classifies (cache : Option InstanceStatus)
    (status : Nat) (text : String) (body : α)
    (hfail : isOkStatus status = false) :
    (callAPI cache (FetchOutcome.response status text body)).result = Except.error text ∧
    (callAPI cache (FetchOutcome.response status text body)).statusCache =
      some (if status = 401 then InstanceStatus.AuthenticationFailure
            else InstanceStatus.UnknownError) ∧
    (callAPI cache (FetchOutcome.response status text body)).statusUpdates =
      (if cache = some (if status = 401 then InstanceStatus.AuthenticationFailure
                        else InstanceStatus.UnknownError) then []
       else [((if status = 401 then InstanceStatus.AuthenticationFailure
               else InstanceStatus.UnknownError), some text)]) := by
  unfold callAPI updateStatusCached
  by_cases h401 : status = 401
  · subst h401
    by_cases hc : cache = some InstanceStatus.AuthenticationFailure <;>
      simp [hfail, hc]
  · by_cases hc : cache = some InstanceStatus.UnknownError <;>
      simp [hfail, h401, hc]

/-- Witness for C9 at status 401 with an empty status cache. -/
theorem callAPI_nonsuccess_classifies_witness :
    (callAPI (α := Unit) none (FetchOutcome.response 401 "Unauthorized" ())).result =
        Except.error "Unauthorized" ∧
    (callAPI (α := Unit) none (FetchOutcome.response 401 "Unauthorized" ())).statusCache =
        some InstanceStatus.AuthenticationFailure ∧
    (callAPI (α := Unit) none (FetchOutcome.response 401 "Unauthorized" ())).statusUpdates =
        [(InstanceStatus.AuthenticationFailure, some "Unauthorized")] := by
  have h := callAPI_nonsuccess_classifies (α := Unit) none 401 "Unauthorized" () (by decide)
  refine ⟨h.1, ?_, ?_⟩
  · simpa using h.2.1
  · simpa using h.2.2

/-- Claim C4: an expanded stream token that is a key of the by-id map is
returned unchanged (identifier match takes priority, regardless of the
by-name map); only a token that is not a known id is looked up as a name;
a token matching neither is passed through as-is with a logged warning. -/
theorem resolveActionOptions_id_priority (st : InstanceState) (expand : String → String)
    (tok : String) (pf : Option (List PlatformEntry)) (oo : Option String) :
    (mapHas st.streams (expand tok) = true →
      (resolveActionOptions st expand ⟨some tok, none, pf, oo⟩).1.stream = some (expand tok)) ∧
    (mapHas st.streams (expand tok) = false →
      ∀ strm : StreamRecord, mapGet? st.streamsByName (expand tok) = some strm →
        (resolveActionOptions st expand ⟨some tok, none, pf, oo⟩).1.stream = some strm._id) ∧
    (mapHas st.streams (expand tok) = false →
      mapGet? st.streamsByName (expand tok) = none →
        (resolveActionOptions st expand ⟨some tok, none, pf, oo⟩).1.stream = some (expand tok) ∧
        (LogLevel.warn, "Stream name " ++ expand tok ++ " not found, passing as-is to API")
          ∈ (resolveActionOptions st expand ⟨some tok, none, pf, oo⟩).2) := by
  refine ⟨fun hid => ?_, fun hid strm hnm => ?_, fun hid hnm => ?_⟩
  · simp [resolveActionOptions, resolveStreamToken, hid]
  · simp [resolveActionOptions, resolveStreamToken, hid, hnm]
  · simp [resolveActionOptions, resolveStreamToken, hid, hnm]

/-- Witness for C4: a directory where the token `X` is both a stream id
and the name of another stream; resolution keeps the id. -/
theorem resolveActionOptions_id_priority_witness :
    (resolveActionOptions
      { initialState with
          streams := [("X", ⟨"X", "alpha", some true, none, none, none⟩)]
          streamsByName := [("X", ⟨"other", "X", some false, none, none, none⟩)] }
      (fun s => s) ⟨some "X", none, none, none⟩).1.stream = some "X" := by
  exact (resolveActionOptions_id_priority
    { initialState with
        streams := [("X", ⟨"X", "alpha", some true, none, none, none⟩)]
        streamsByName := [("X", ⟨"other", "X", some false, none, none, none⟩)] }
    (fun s => s) "X" none none).1 (by decide)

/-- Claim C5 (amended): for a stream found in the by-name mapping under
the stream part of a compound token that splits into exactly
`[streamPart, platformPart]` (i.e. neither part contains the separator),
resolution returns the id of that stream and collects, in platform order, one
`{platformId, currentlyEnabled}` entry per platform whose name equals the
platform part — all of them when the platform part is the `*ALL*`
wildcard (duplicate names yield duplicate entries). -/
theorem resolveActionOptions_platform_fanout (st : InstanceState)
    (expand : String → String) (tok sname ppart : String) (strm : StreamRecord)
    (pf : Option (List PlatformEntry)) (oo : Option String)
    (hsplit : jsSplit (expand tok) " :: " = [sname, ppart])
    (hrec : mapGet? st.streamsByName sname = some strm) :
    (resolveActionOptions st expand ⟨none, some tok, pf, oo⟩).1.stream = some strm._id ∧
    (resolveActionOptions st expand ⟨none, some tok, pf, oo⟩).1.platforms =
      some (((strm.platforms.getD []).filter
          (fun pl => ppart == pl.name || ppart == "*ALL*")).map
        (fun pl => ({ id := pl._id, enabled := pl.enabled } : PlatformEntry))) ∧
    (ppart = "*ALL*" →
      (resolveActionOptions st expand ⟨none, some tok, pf, oo⟩).1.platforms =
        some ((strm.platforms.getD []).map
          (fun pl => ({ id := pl._id, enabled := pl.enabled } : PlatformEntry)))) := by
  have hmain : (resolveActionOptions st expand ⟨none, some tok, pf, oo⟩).1.stream
        = some strm._id ∧
      (resolveActionOptions st expand ⟨none, some tok, pf, oo⟩).1.platforms =
        some (((strm.platforms.getD []).filter
            (fun pl => ppart == pl.name || ppart == "*ALL*")).map
          (fun pl => ({ id := pl._id, enabled := pl.enabled } : PlatformEntry))) := by
    constructor <;>
      simp [resolveActionOptions, resolveStreamToken, hsplit, hrec]
  refine ⟨hmain.1, hmain.2, fun hall => ?_⟩
  rw [hmain.2]
  congr 1
  congr 1
  apply List.filter_eq_self.mpr
  intro pl _
  simp [hall]

/-- Witness for C5: a stream `S` with two platforms resolved through the
wildcard token `S :: *ALL*` yields one entry per platform in order. -/
theorem resolveActionOptions_platform_fanout_witness :
    (resolveActionOptions
      { initialState with
          streamsByName :=
            [("S", ⟨"s1", "S", some true, none, some ⟨some "srv", some "k"⟩,
              some [⟨"p1", "YT", some true, none⟩, ⟨"p2", "TW", some false, none⟩]⟩)] }
      (fun s => s) ⟨none, some "S :: *ALL*", none, none⟩).1.platforms =
      some [⟨"p1", some true⟩, ⟨"p2", some false⟩] := by
  have h := resolveActionOptions_platform_fanout
    { initialState with
        streamsByName :=
          [("S", ⟨"s1", "S", some true, none, some ⟨some "srv", some "k"⟩,
            some [⟨"p1", "YT", some true, none⟩, ⟨"p2", "TW", some false, none⟩]⟩)] }
    (fun s => s) "S :: *ALL*" "S" "*ALL*"
    ⟨"s1", "S", some true, none, some ⟨some "srv", some "k"⟩,
      some [⟨"p1", "YT", some true, none⟩, ⟨"p2", "TW", some false, none⟩]⟩
    none none (by decide) (by decide)
  exact (h.2.2 rfl).trans rfl

/-- Counterexample for C5 as frozen: the stream name `A :: B` contains the
separator, so the compound token `A :: B :: *ALL*` splits into
`["A", "B", "*ALL*"]`, the lookup of `A` fails, an error is logged and no
platform entries are produced — not one entry per platform of `A :: B`. -/
theorem platform_fanout_name_with_separator_counterexample :
    (resolveActionOptions
      { initialState with
          streamsByName :=
            [("A :: B", ⟨"s1", "A :: B", some true, none, some ⟨some "srv", some "k"⟩,
              some [⟨"p1", "YT", some true, none⟩]⟩)] }
      (fun s => s) ⟨none, some "A :: B :: *ALL*", none, none⟩).1.platforms = none ∧
    (LogLevel.error, "resolveActionOptions() - platform A not found")
      ∈ (resolveActionOptions
      { initialState with
          streamsByName :=
            [("A :: B", ⟨"s1", "A :: B", some true, none, some ⟨some "srv", some "k"⟩,
              some [⟨"p1", "YT", some true, none⟩]⟩)] }
      (fun s => s) ⟨none, some "A :: B :: *ALL*", none, none⟩).2 := by
  decide

/-- Claim C3: invoking `actionEnablePlatform` with a compound token whose
stream part is not a key of the by-name mapping logs a resolution error
and issues no PATCH call (the unresolved `platforms` list makes the
handler throw before any request). -/
theorem actionEnablePlatform_unknown_stream (st : InstanceState)
    (expand : String → String) (tok : String) (oo : Option String)
    (hunknown : mapHas st.streamsByName ((jsSplit (expand tok) " :: ").headD "") = false) :
    (actionEnablePlatform st expand ⟨none, some tok, none, oo⟩).calls = [] ∧
    (LogLevel.error, "resolveActionOptions() - platform "
        ++ ((jsSplit (expand tok) " :: ").headD "") ++ " not found")
      ∈ (actionEnablePlatform st expand ⟨none, some tok, none, oo⟩).logs := by
  have hget := mapHas_false_get st.streamsByName
    ((jsSplit (expand tok) " :: ").headD "") hunknown
  rw [List.headD_eq_head?_getD] at hget
  constructor <;>
    simp [actionEnablePlatform, resolveActionOptions, resolveStreamToken, hget]

/-- Witness for C3: empty directory, token `S :: YT`. -/
theorem actionEnablePlatform_unknown_stream_witness :
    (actionEnablePlatform initialState (fun s => s)
      ⟨none, some "S :: YT", none, some "enable"⟩).calls = [] ∧
    (LogLevel.error, "resolveActionOptions() - platform S not found")
      ∈ (actionEnablePlatform initialState (fun s => s)
        ⟨none, some "S :: YT", none, some "enable"⟩).logs := by
  have h := actionEnablePlatform_unknown_stream initialState (fun s => s)
    "S :: YT" (some "enable") (by decide)
  exact ⟨h.1, by simpa using h.2⟩

/-- Claim C10: with a known stream name but a platform part matching no
platform of that stream (and not the wildcard), the resolved platform set
is empty and the handler issues zero PATCH calls without logging any
error or warning (all emitted log lines are debug). -/
theorem actionEnablePlatform_no_match_silent (st : InstanceState)
    (expand : String → String) (tok sname ppart : String) (strm : StreamRecord)
    (oo : Option String)
    (hsplit : jsSplit (expand tok) " :: " = [sname, ppart])
    (hrec : mapGet? st.streamsByName sname = some strm)
    (hwild : ppart ≠ "*ALL*")
    (hnone : ∀ pl ∈ strm.platforms.getD [], pl.name ≠ ppart) :
    (actionEnablePlatform st expand ⟨none, some tok, none, oo⟩).calls = [] ∧
    (actionEnablePlatform st expand ⟨none, some tok, none, oo⟩).crashed = false ∧
    ∀ p ∈ (actionEnablePlatform st expand ⟨none, some tok, none, oo⟩).logs,
      p.1 = LogLevel.debug := by
  have hfilter : (strm.platforms.getD []).filter
      (fun pl => some ppart == some pl.name || some ppart == some "*ALL*") = [] := by
    rw [List.filter_eq_nil_iff]
    intro pl hpl
    simp only [Bool.or_eq_true, beq_iff_eq, Option.some.injEq, not_or]
    exact ⟨fun hh => hnone pl hpl hh.symm, hwild⟩
  refine ⟨?_, ?_, ?_⟩ <;>
    simp [actionEnablePlatform, resolveActionOptions, resolveStreamToken,
      hsplit, hrec, hfilter] <;>
    exact fun a ha => ⟨fun hh => hnone a ha hh.symm, hwild⟩

/-- Witness for C10: stream `S` has only platform `YT`; token `S :: FB`
resolves to an empty platform set and a silent no-op. -/
theorem actionEnablePlatform_no_match_silent_witness :
    (actionEnablePlatform
      { initialState with
          streamsByName :=
            [("S", ⟨"s1", "S", some true, none, some ⟨some "srv", some "k"⟩,
              some [⟨"p1", "YT", some true, none⟩]⟩)] }
      (fun s => s) ⟨none, some "S :: FB", none, some "toggle"⟩).calls = [] ∧
    (actionEnablePlatform
      { initialState with
          streamsByName :=
            [("S", ⟨"s1", "S", some true, none, some ⟨some "srv", some "k"⟩,
              some [⟨"p1", "YT", some true, none⟩]⟩)] }
      (fun s => s) ⟨none, some "S :: FB", none, some "toggle"⟩).crashed = false := by
  have h := actionEnablePlatform_no_match_silent
    { initialState with
        streamsByName :=
          [("S", ⟨"s1", "S", some true, none, some ⟨some "srv", some "k"⟩,
            some [⟨"p1", "YT", some true, none⟩]⟩)] }
    (fun s => s) "S :: FB" "S" "FB"
    ⟨"s1", "S", some true, none, some ⟨some "srv", some "k"⟩,
      some [⟨"p1", "YT", some true, none⟩]⟩
    (some "toggle") (by decide) (by decide) (by decide) (by decide)
  exact ⟨h.1, h.2.1⟩

/-- Claim C1 (behaviour at the failing input): invoking
`actionEnableStream` with the toggle selector and a resolved stream token
unknown to the by-id map logs the cannot-toggle error but still issues a
PATCH with `{enabled: false}` — the handler falls through instead of
aborting. -/
theorem actionEnableStream_toggle_unknown_still_patches (st : InstanceState)
    (expand : String → String) (action : ActionOptions)
    (honoff : action.onoff = some "toggle")
    (hunknown : mapHasOpt st.streams
      ((resolveActionOptions st expand action).1.stream) = false) :
    (LogLevel.error, "actionEnableStream(): Stream "
        ++ jsShow ((resolveActionOptions st expand action).1.stream)
        ++ " not found, cannot toggle")
      ∈ (actionEnableStream st expand action).logs ∧
    (actionEnableStream st expand action).calls =
      [⟨"PATCH", "live_streams", (resolveActionOptions st expand action).1.stream,
        some false⟩] := by
  have honoff' : ((resolveActionOptions st expand action).1).onoff = some "toggle" := by
    rw [resolveActionOptions_onoff]; exact honoff
  have hget : mapGetOpt? st.streams ((resolveActionOptions st expand action).1.stream) = none := by
    rcases hs : (resolveActionOptions st expand action).1.stream with _ | s
    · rfl
    · rw [hs] at hunknown
      simpa [mapGetOpt?] using mapHas_false_get st.streams s hunknown
  constructor <;>
    simp [actionEnableStream, honoff', hget]

/-- Witness for C1: empty directory, toggling the unknown token `ghost`
still issues `PATCH live_streams/ghost {enabled: false}`. -/
theorem actionEnableStream_toggle_unknown_still_patches_witness :
    (LogLevel.error, "actionEnableStream(): Stream ghost not found, cannot toggle")
      ∈ (actionEnableStream initialState (fun s => s)
        ⟨some "ghost", none, none, some "toggle"⟩).logs ∧
    (actionEnableStream initialState (fun s => s)
      ⟨some "ghost", none, none, some "toggle"⟩).calls =
      [⟨"PATCH", "live_streams", some "ghost", some false⟩] := by
  have h := actionEnableStream_toggle_unknown_still_patches initialState
    (fun s => s) ⟨some "ghost", none, none, some "toggle"⟩ rfl (by decide)
  exact ⟨by simpa using h.1, by simpa using h.2⟩

theorem callAPI_failed_result (cache : Option InstanceStatus) (res : FetchOutcome α)
    (hfail : fetchFailed res = true) :
    ∃ e, (callAPI cache res).result = Except.error e := by
  cases res with
  | networkError err => exact ⟨err, rfl⟩
  | response s t b =>
    refine ⟨t, ?_⟩
    have hf : isOkStatus s = false := by
      simpa [fetchFailed] using hfail
    simp [callAPI, hf]
    split <;> rfl

/-- Claim C7: a poll whose GET fails (network exception or non-success
HTTP status) leaves the by-id map, the by-name map, the platform
cross-reference table and the reference-string list exactly as they were,
logs the failure, and publishes nothing. -/
theorem pollAPI_failure_preserves (st : InstanceState)
    (res : FetchOutcome LiveStreamsResponse)
    (hfail : fetchFailed res = true) :
    (pollAPI st res).1.streams = st.streams ∧
    (pollAPI st res).1.streamsByName = st.streamsByName ∧
    (pollAPI st res).1.platforms = st.platforms ∧
    (pollAPI st res).1.platformsDropdown = st.platformsDropdown ∧
    (LogLevel.error, "failed to read stream list") ∈ (pollAPI st res).2.logs ∧
    (pollAPI st res).2.variableDefsPublished = [] ∧
    (pollAPI st res).2.variableValsPublished = [] ∧
    (pollAPI st res).2.actionsPublished = [] ∧
    (pollAPI st res).2.feedbacksPublished = [] := by
  obtain ⟨e, he⟩ := callAPI_failed_result st.statusCache res hfail
  simp [pollAPI, he]

/-- Witness for C7: a 500 response against a directory holding one
stream leaves every Directory field untouched. -/
theorem pollAPI_failure_preserves_witness :
    (pollAPI
      { initialState with
          streams := [("s1", ⟨"s1", "A", some true, none, none, none⟩)]
          streamsByName := [("A", ⟨"s1", "A", some true, none, none, none⟩)]
          platformsDropdown := [⟨"A :: *ALL*", "A :: *ALL*"⟩] }
      (FetchOutcome.response 500 "Internal Server Error" ⟨[]⟩)).1.streams =
      [("s1", ⟨"s1", "A", some true, none, none, none⟩)] ∧
    (pollAPI
      { initialState with
          streams := [("s1", ⟨"s1", "A", some true, none, none, none⟩)]
          streamsByName := [("A", ⟨"s1", "A", some true, none, none, none⟩)]
          platformsDropdown := [⟨"A :: *ALL*", "A :: *ALL*"⟩] }
      (FetchOutcome.response 500 "Internal Server Error" ⟨[]⟩)).1.platformsDropdown =
      [⟨"A :: *ALL*", "A :: *ALL*"⟩] := by
  have h := pollAPI_failure_preserves
    { initialState with
        streams := [("s1", ⟨"s1", "A", some true, none, none, none⟩)]
        streamsByName := [("A", ⟨"s1", "A", some true, none, none, none⟩)]
        platformsDropdown := [⟨"A :: *ALL*", "A :: *ALL*"⟩] }
    (FetchOutcome.response 500 "Internal Server Error" ⟨[]⟩) (by decide)
  exact ⟨h.1, h.2.2.2.1⟩

/-! ### Component lemmas about the rebuild loop -/

theorem foldl_processPlatform_streams (n i : String) (l : List PlatformRecord)
    (acc : RebuildAcc) :
    (l.foldl (processPlatform n i) acc).streams = acc.streams := by
  induction l generalizing acc with
  | nil => rfl
  | cons pl t ih =>
    rw [List.foldl_cons, ih]
    simp [processPlatform, addVar]

theorem foldl_processPlatform_byName (n i : String) (l : List PlatformRecord)
    (acc : RebuildAcc) :
    (l.foldl (processPlatform n i) acc).streamsByName = acc.streamsByName := by
  induction l generalizing acc with
  | nil => rfl
  | cons pl t ih =>
    rw [List.foldl_cons, ih]
    simp [processPlatform, addVar]

theorem foldl_processPlatform_logs (n i : String) (l : List PlatformRecord)
    (acc : RebuildAcc) :
    (l.foldl (processPlatform n i) acc).logs = acc.logs := by
  induction l generalizing acc with
  | nil => rfl
  | cons pl t ih =>
    rw [List.foldl_cons, ih]
    simp [processPlatform, addVar]

theorem foldl_processPlatform_dropdown (n i : String) (l : List PlatformRecord)
    (acc : RebuildAcc) :
    (l.foldl (processPlatform n i) acc).platformsDropdown =
      acc.platformsDropdown ++ l.map
        (fun pl => (⟨n ++ " :: " ++ pl.name, n ++ " :: " ++ pl.name⟩ : DropdownChoice)) := by
  induction l generalizing acc with
  | nil => simp
  | cons pl t ih =>
    rw [List.foldl_cons, ih]
    simp [processPlatform, addVar]

theorem processStream_streams (acc : RebuildAcc) (r : StreamRecord) :
    (processStream acc r).streams = mapSet acc.streams r._id r := by
  rcases hing : r.ingest with _ | ing <;>
    simp [processStream, hing, addVar, foldl_processPlatform_streams]

theorem processStream_byName (acc : RebuildAcc) (r : StreamRecord) :
    (processStream acc r).streamsByName = mapSet acc.streamsByName r.name r := by
  rcases hing : r.ingest with _ | ing <;>
    simp [processStream, hing, addVar, foldl_processPlatform_byName]

theorem processStream_logs_ill (acc : RebuildAcc) (r : StreamRecord)
    (hing : r.ingest = none) :
    (processStream acc r).logs =
      acc.logs ++ [(LogLevel.error, "failed to parse stream data: TypeError")] := by
  simp [processStream, hing, addVar]

theorem processStream_logs_wf (acc : RebuildAcc) (r : StreamRecord) (ing : Ingest)
    (hing : r.ingest = some ing) :
    (processStream acc r).logs = acc.logs := by
  simp [processStream, hing, addVar, foldl_processPlatform_logs]

theorem processStream_logs_mono (acc : RebuildAcc) (r : StreamRecord)
    (x : LogLevel × String) (hx : x ∈ acc.logs) : x ∈ (processStream acc r).logs := by
  rcases hing : r.ingest with _ | ing
  · rw [processStream_logs_ill acc r hing]
    exact List.mem_append_left _ hx
  · rw [processStream_logs_wf acc r ing hing]
    exact hx

theorem processStream_dropdown_ill (acc : RebuildAcc) (r : StreamRecord)
    (hing : r.ingest = none) :
    (processStream acc r).platformsDropdown = acc.platformsDropdown := by
  simp [processStream, hing, addVar]

theorem processStream_dropdown_wf (acc : RebuildAcc) (r : StreamRecord) (ing : Ingest)
    (hing : r.ingest = some ing) :
    (processStream acc r).platformsDropdown =
      (acc.platformsDropdown ++ dropdownEntries r).mergeSort dropdownLe := by
  simp [processStream, hing, addVar, foldl_processPlatform_dropdown, dropdownEntries]

/-! ### Fold-level rebuild lemmas -/

theorem rebuild_streams_has_mono (docs : List StreamRecord) (acc : RebuildAcc)
    (k : String) (h : mapHas acc.streams k = true) :
    mapHas ((docs.foldl processStream acc).streams) k = true := by
  induction docs generalizing acc with
  | nil => exact h
  | cons d t ih =>
    rw [List.foldl_cons]
    exact ih _ (by rw [processStream_streams]; exact mapHas_set_mono _ _ _ _ h)

theorem rebuild_byName_has_mono (docs : List StreamRecord) (acc : RebuildAcc)
    (k : String) (h : mapHas acc.streamsByName k = true) :
    mapHas ((docs.foldl processStream acc).streamsByName) k = true := by
  induction docs generalizing acc with
  | nil => exact h
  | cons d t ih =>
    rw [List.foldl_cons]
    exact ih _ (by rw [processStream_byName]; exact mapHas_set_mono _ _ _ _ h)

theorem rebuild_streams_mapHas (docs : List StreamRecord) (acc : RebuildAcc)
    (r : StreamRecord) (hr : r ∈ docs) :
    mapHas ((docs.foldl processStream acc).streams) r._id = true := by
  induction docs generalizing acc with
  | nil => cases hr
  | cons d t ih =>
    rw [List.foldl_cons]
    rcases List.mem_cons.mp hr with h | h
    · subst h
      exact rebuild_streams_has_mono t _ _
        (by rw [processStream_streams]; exact mapHas_set_self _ _ _)
    · exact ih _ h

theorem rebuild_byName_mapHas (docs : List StreamRecord) (acc : RebuildAcc)
    (r : StreamRecord) (hr : r ∈ docs) :
    mapHas ((docs.foldl processStream acc).streamsByName) r.name = true := by
  induction docs generalizing acc with
  | nil => cases hr
  | cons d t ih =>
    rw [List.foldl_cons]
    rcases List.mem_cons.mp hr with h | h
    · subst h
      exact rebuild_byName_has_mono t _ _
        (by rw [processStream_byName]; exact mapHas_set_self _ _ _)
    · exact ih _ h

theorem rebuild_byName_get (docs : List StreamRecord) (acc : RebuildAcc) (n : String) :
    mapGet? ((docs.foldl processStream acc).streamsByName) n =
      docs.foldl (fun o r => if r.name = n then some r else o)
        (mapGet? acc.streamsByName n) := by
  induction docs generalizing acc with
  | nil => rfl
  | cons d t ih =>
    rw [List.foldl_cons, List.foldl_cons, ih]
    congr 1
    rw [processStream_byName]
    by_cases hd : d.name = n
    · subst hd
      rw [mapGet?_set_self, if_pos rfl]
    · rw [mapGet?_set_ne _ _ _ _ (fun hh => hd hh.symm), if_neg hd]

theorem rebuild_logs_mono (docs : List StreamRecord) (acc : RebuildAcc)
    (x : LogLevel × String) (hx : x ∈ acc.logs) :
    x ∈ (docs.foldl processStream acc).logs := by
  induction docs generalizing acc with
  | nil => exact hx
  | cons d t ih =>
    rw [List.foldl_cons]
    exact ih _ (processStream_logs_mono _ _ _ hx)

theorem dropdownLe_trans : ∀ a b c : DropdownChoice,
    dropdownLe a b → dropdownLe b c → dropdownLe a c := by
  intro a b c hab hbc
  simp only [dropdownLe, decide_eq_true_eq] at *
  exact le_trans hab hbc

theorem dropdownLe_total : ∀ a b : DropdownChoice,
    dropdownLe a b || dropdownLe b a := by
  intro a b
  simp only [dropdownLe, Bool.or_eq_true, decide_eq_true_eq]
  exact le_total a.id b.id

theorem rebuild_dropdown_sorted (docs : List StreamRecord) (acc : RebuildAcc)
    (hacc : acc.platformsDropdown.Pairwise (fun a b => dropdownLe a b = true))
    (hwf : ∀ r ∈ docs, r.ingest.isSome = true) :
    ((docs.foldl processStream acc).platformsDropdown).Pairwise
      (fun a b => dropdownLe a b = true) := by
  induction docs generalizing acc with
  | nil => exact hacc
  | cons d t ih =>
    rw [List.foldl_cons]
    refine ih _ ?_ (fun r hr => hwf r (List.mem_cons_of_mem _ hr))
    obtain ⟨ing, hing⟩ := Option.isSome_iff_exists.mp (hwf d (List.mem_cons_self _ _))
    rw [processStream_dropdown_wf acc d ing hing]
    exact List.sorted_mergeSort dropdownLe_trans dropdownLe_total _

theorem rebuild_dropdown_perm (docs : List StreamRecord) (acc : RebuildAcc)
    (hwf : ∀ r ∈ docs, r.ingest.isSome = true) :
    List.Perm ((docs.foldl processStream acc).platformsDropdown)
      (acc.platformsDropdown ++ docs.flatMap dropdownEntries) := by
  induction docs generalizing acc with
  | nil => simp
  | cons d t ih =>
    rw [List.foldl_cons]
    have h1 := ih (processStream acc d) (fun r hr => hwf r (List.mem_cons_of_mem _ hr))
    obtain ⟨ing, hing⟩ := Option.isSome_iff_exists.mp (hwf d (List.mem_cons_self _ _))
    rw [processStream_dropdown_wf acc d ing hing] at h1
    refine h1.trans ?_
    have h2 : List.Perm
        (((acc.platformsDropdown ++ dropdownEntries d).mergeSort dropdownLe) ++
          t.flatMap dropdownEntries)
        ((acc.platformsDropdown ++ dropdownEntries d) ++ t.flatMap dropdownEntries) :=
      (List.mergeSort_perm _ _).append_right _
    refine h2.trans ?_
    rw [List.flatMap_cons, List.append_assoc]

/-! ### Field-preservation lemmas for the publish pipeline -/

theorem initActions_fields (st : InstanceState) :
    ((initActions st).1).streams = st.streams ∧
    ((initActions st).1).streamsByName = st.streamsByName ∧
    ((initActions st).1).platforms = st.platforms ∧
    ((initActions st).1).platformsDropdown = st.platformsDropdown ∧
    ((initActions st).1).variableDefinitionsCache = st.variableDefinitionsCache ∧
    ((initActions st).1).variableValuesCache = st.variableValuesCache ∧
    ((initActions st).1).statusCache = st.statusCache := by
  simp only [initActions]
  split <;> exact ⟨rfl, rfl, rfl, rfl, rfl, rfl, rfl⟩

theorem initFeedbacks_fields (st : InstanceState) :
    ((initFeedbacks st).1).streams = st.streams ∧
    ((initFeedbacks st).1).streamsByName = st.streamsByName ∧
    ((initFeedbacks st).1).platforms = st.platforms ∧
    ((initFeedbacks st).1).platformsDropdown = st.platformsDropdown ∧
    ((initFeedbacks st).1).variableDefinitionsCache = st.variableDefinitionsCache ∧
    ((initFeedbacks st).1).variableValuesCache = st.variableValuesCache ∧
    ((initFeedbacks st).1).statusCache = st.statusCache := by
  simp only [initFeedbacks]
  split <;> exact ⟨rfl, rfl, rfl, rfl, rfl, rfl, rfl⟩

theorem publishDefs_fields (st : InstanceState) (d : List VariableDefinition) :
    (publishDefs st d).1.streams = st.streams ∧
    (publishDefs st d).1.streamsByName = st.streamsByName ∧
    (publishDefs st d).1.platforms = st.platforms ∧
    (publishDefs st d).1.platformsDropdown = st.platformsDropdown ∧
    (publishDefs st d).1.variableValuesCache = st.variableValuesCache ∧
    (publishDefs st d).1.statusCache = st.statusCache ∧
    (publishDefs st d).1.variableDefinitionsCache = some d := by
  simp only [publishDefs]
  split
  · next h => exact ⟨rfl, rfl, rfl, rfl, rfl, rfl, h⟩
  · exact ⟨rfl, rfl, rfl, rfl, rfl, rfl, rfl⟩

theorem publishVals_fields (st : InstanceState) (v : List (String × VarValue)) :
    (publishVals st v).1.streams = st.streams ∧
    (publishVals st v).1.streamsByName = st.streamsByName ∧
    (publishVals st v).1.platforms = st.platforms ∧
    (publishVals st v).1.platformsDropdown = st.platformsDropdown ∧
    (publishVals st v).1.variableDefinitionsCache = st.variableDefinitionsCache ∧
    (publishVals st v).1.variableValuesCache = some v := by
  simp only [publishVals]
  split
  · next h => exact ⟨rfl, rfl, rfl, rfl, rfl, h⟩
  · have ha := initActions_fields { st with variableValuesCache := some v }
    have hf := initFeedbacks_fields (initActions { st with variableValuesCache := some v }).1
    simp only []
    refine ⟨?_, ?_, ?_, ?_, ?_, ?_⟩
    · rw [hf.1, ha.1]
    · rw [hf.2.1, ha.2.1]
    · rw [hf.2.2.1, ha.2.2.1]
    · rw [hf.2.2.2.1, ha.2.2.2.1]
    · rw [hf.2.2.2.2.1, ha.2.2.2.2.1]
    · rw [hf.2.2.2.2.2.1, ha.2.2.2.2.2.1]

theorem pollRebuild_fields (st : InstanceState) (json : LiveStreamsResponse) :
    (pollRebuild st json).1.streams = (rebuildAcc json.docs).streams ∧
    (pollRebuild st json).1.streamsByName = (rebuildAcc json.docs).streamsByName ∧
    (pollRebuild st json).1.platforms = (rebuildAcc json.docs).platforms ∧
    (pollRebuild st json).1.platformsDropdown = (rebuildAcc json.docs).platformsDropdown ∧
    (pollRebuild st json).1.variableDefinitionsCache =
      some (rebuildAcc json.docs).variableDefinitions ∧
    (pollRebuild st json).1.variableValuesCache =
      some (rebuildAcc json.docs).variableValues := by
  unfold pollRebuild
  simp only []
  have hd := publishDefs_fields
    { st with
      streams := (rebuildAcc json.docs).streams
      streamsByName := (rebuildAcc json.docs).streamsByName
      platforms := (rebuildAcc json.docs).platforms
      platformsDropdown := (rebuildAcc json.docs).platformsDropdown }
    (rebuildAcc json.docs).variableDefinitions
  have hv := publishVals_fields
    (publishDefs
      { st with
        streams := (rebuildAcc json.docs).streams
        streamsByName := (rebuildAcc json.docs).streamsByName
        platforms := (rebuildAcc json.docs).platforms
        platformsDropdown := (rebuildAcc json.docs).platformsDropdown }
      (rebuildAcc json.docs).variableDefinitions).1
    (rebuildAcc json.docs).variableValues
  refine ⟨?_, ?_, ?_, ?_, ?_, ?_⟩
  · rw [hv.1, hd.1]
  · rw [hv.2.1, hd.2.1]
  · rw [hv.2.2.1, hd.2.2.1]
  · rw [hv.2.2.2.1, hd.2.2.2.1]
  · rw [hv.2.2.2.2.1, hd.2.2.2.2.2.2]
  · rw [hv.2.2.2.2.2]

theorem pollAPI_ok_eq (st : InstanceState) (s : Nat) (t : String)
    (json : LiveStreamsResponse) (hok : isOkStatus s = true) :
    pollAPI st (FetchOutcome.response s t json) =
      ((pollRebuild st json).1,
        { (pollRebuild st json).2 with
          logs := (LogLevel.debug, "API Response: " ++ toString s ++ " " ++ t) ::
            (pollRebuild st json).2.logs }) := by
  simp [pollAPI, callAPI, hok]

/-- Claim C8: after a successful poll whose records are all well-formed,
every stream of the response is a key of both the by-id and the by-name
mapping, the by-name mapping associates each name with the last record of
the response carrying it (last-one-wins), and the platform
reference-string list is a permutation of one wildcard entry per stream
plus one entry per platform (in stream/platform order) sorted
lexicographically by the reference string. -/
theorem pollAPI_rebuild_complete (st : InstanceState) (docs : List StreamRecord)
    (s : Nat) (t : String)
    (hok : isOkStatus s = true) (hwf : ∀ r ∈ docs, r.ingest.isSome = true) :
    (∀ r ∈ docs,
      mapHas ((pollAPI st (FetchOutcome.response s t ⟨docs⟩)).1.streams) r._id = true ∧
      mapHas ((pollAPI st (FetchOutcome.response s t ⟨docs⟩)).1.streamsByName) r.name = true ∧
      mapGet? ((pollAPI st (FetchOutcome.response s t ⟨docs⟩)).1.streamsByName) r.name =
        lastWins docs r.name) ∧
    List.Perm ((pollAPI st (FetchOutcome.response s t ⟨docs⟩)).1.platformsDropdown)
      (docs.flatMap dropdownEntries) ∧
    ((pollAPI st (FetchOutcome.response s t ⟨docs⟩)).1.platformsDropdown).Pairwise
      (fun a b => a.id ≤ b.id) := by
  rw [pollAPI_ok_eq st s t ⟨docs⟩ hok]
  have hf := pollRebuild_fields st ⟨docs⟩
  refine ⟨fun r hr => ⟨?_, ?_, ?_⟩, ?_, ?_⟩
  · rw [hf.1]
    exact rebuild_streams_mapHas docs emptyAcc r hr
  · rw [hf.2.1]
    exact rebuild_byName_mapHas docs emptyAcc r hr
  · rw [hf.2.1]
    exact rebuild_byName_get docs emptyAcc r.name
  · rw [hf.2.2.2.1]
    simpa using rebuild_dropdown_perm docs emptyAcc hwf
  · rw [hf.2.2.2.1]
    have h := rebuild_dropdown_sorted docs emptyAcc List.Pairwise.nil hwf
    exact h.imp (fun hab => by simpa [dropdownLe] using hab)

/-- Witness for C8: a one-stream, one-platform response. -/
theorem pollAPI_rebuild_complete_witness :
    mapHas ((pollAPI initialState (FetchOutcome.response 200 "OK"
        ⟨[⟨"s1", "A", some true, none, some ⟨some "srv", some "k"⟩,
           some [⟨"p1", "YT", some true, none⟩]⟩]⟩)).1.streams) "s1" = true ∧
    mapHas ((pollAPI initialState (FetchOutcome.response 200 "OK"
        ⟨[⟨"s1", "A", some true, none, some ⟨some "srv", some "k"⟩,
           some [⟨"p1", "YT", some true, none⟩]⟩]⟩)).1.streamsByName) "A" = true := by
  have h := pollAPI_rebuild_complete initialState
    [⟨"s1", "A", some true, none, some ⟨some "srv", some "k"⟩,
      some [⟨"p1", "YT", some true, none⟩]⟩] 200 "OK" (by decide) (by decide)
  have hr := h.1 _ (List.mem_singleton.mpr rfl)
  exact ⟨hr.1, hr.2.1⟩

theorem pollRebuild_logs (st : InstanceState) (json : LiveStreamsResponse) :
    (pollRebuild st json).2.logs =
      (LogLevel.debug, "pollAPI() live_streams response") :: (rebuildAcc json.docs).logs := rfl

/-- Counterexample for C2 as frozen: a record whose `ingest` object is
missing is claimed to be absent from the rebuilt Directory, but the code
inserts it into both maps before the fallible parse; the parse failure is
logged all the same. -/
theorem pollAPI_parse_failure_counterexample :
    mapHas ((pollAPI initialState (FetchOutcome.response 200 "OK"
        ⟨[⟨"s1", "A", some true, none, none, some []⟩]⟩)).1.streams) "s1" = true ∧
    mapHas ((pollAPI initialState (FetchOutcome.response 200 "OK"
        ⟨[⟨"s1", "A", some true, none, none, some []⟩]⟩)).1.streamsByName) "A" = true ∧
    (LogLevel.error, "failed to parse stream data: TypeError")
      ∈ (pollAPI initialState (FetchOutcome.response 200 "OK"
        ⟨[⟨"s1", "A", some true, none, none, some []⟩]⟩)).2.logs := by
  decide

/-- Claim C2 (amended): a record that throws during the per-record parse
is still inserted into both the by-id and the by-name mapping (the two
`Map.set` calls precede the fallible accesses); the failure is logged and
the rebuild continues with the remaining records. -/
theorem pollAPI_parse_failure_amended (st : InstanceState)
    (pre post : List StreamRecord) (r : StreamRecord) (s : Nat) (t : String)
    (hok : isOkStatus s = true) (hr : r.ingest = none) :
    mapHas ((pollAPI st (FetchOutcome.response s t ⟨pre ++ r :: post⟩)).1.streams)
      r._id = true ∧
    mapHas ((pollAPI st (FetchOutcome.response s t ⟨pre ++ r :: post⟩)).1.streamsByName)
      r.name = true ∧
    (LogLevel.error, "failed to parse stream data: TypeError")
      ∈ (pollAPI st (FetchOutcome.response s t ⟨pre ++ r :: post⟩)).2.logs ∧
    ∀ d ∈ post,
      mapHas ((pollAPI st (FetchOutcome.response s t ⟨pre ++ r :: post⟩)).1.streams)
        d._id = true := by
  rw [pollAPI_ok_eq st s t ⟨pre ++ r :: post⟩ hok]
  have hf := pollRebuild_fields st ⟨pre ++ r :: post⟩
  have hmem : r ∈ pre ++ r :: post := List.mem_append_right _ (List.mem_cons_self _ _)
  refine ⟨?_, ?_, ?_, fun d hd => ?_⟩
  · rw [hf.1]
    exact rebuild_streams_mapHas _ emptyAcc r hmem
  · rw [hf.2.1]
    exact rebuild_byName_mapHas _ emptyAcc r hmem
  · simp only [pollRebuild_logs]
    refine List.mem_cons_of_mem _ (List.mem_cons_of_mem _ ?_)
    show _ ∈ (rebuildAcc (pre ++ r :: post)).logs
    unfold rebuildAcc
    rw [List.foldl_append, List.foldl_cons]
    refine rebuild_logs_mono post _ _ ?_
    rw [processStream_logs_ill _ r hr]
    exact List.mem_append_right _ (List.mem_singleton.mpr rfl)
  · rw [hf.1]
    exact rebuild_streams_mapHas _ emptyAcc d
      (List.mem_append_right _ (List.mem_cons_of_mem _ hd))

/-- Witness for C2 (amended): the bad record `s1` and the good record
`s2` behind it both land in the Directory. -/
theorem pollAPI_parse_failure_amended_witness :
    mapHas ((pollAPI initialState (FetchOutcome.response 200 "OK"
        ⟨[⟨"s1", "A", some true, none, none, some []⟩,
          ⟨"s2", "B", some false, none, some ⟨some "srv", some "k"⟩, some []⟩]⟩)).1.streams)
      "s1" = true ∧
    ∀ d ∈ [(⟨"s2", "B", some false, none, some ⟨some "srv", some "k"⟩, some []⟩ : StreamRecord)],
      mapHas ((pollAPI initialState (FetchOutcome.response 200 "OK"
        ⟨[⟨"s1", "A", some true, none, none, some []⟩,
          ⟨"s2", "B", some false, none, some ⟨some "srv", some "k"⟩, some []⟩]⟩)).1.streams)
        d._id = true := by
  have h := pollAPI_parse_failure_amended initialState []
    [⟨"s2", "B", some false, none, some ⟨some "srv", some "k"⟩, some []⟩]
    ⟨"s1", "A", some true, none, none, some []⟩ 200 "OK" (by decide) rfl
  exact ⟨h.1, h.2.2.2⟩

theorem initActions_state (st : InstanceState) :
    ((initActions st).1).actionsCache =
      some ⟨⟨"Enable Stream", "Enable Stream",
              [streamFieldChoices st, onOffToggleChoices], st.nextFnId⟩,
            ⟨"Enable Platform", "Enable Platform",
              [st.platformsDropdown, onOffToggleChoices], st.nextFnId + 1⟩⟩ ∧
    ((initActions st).1).nextFnId = st.nextFnId + 2 := by
  simp only [initActions]
  split
  · next h => exact ⟨h, rfl⟩
  · exact ⟨rfl, rfl⟩

theorem initFeedbacks_state (st : InstanceState) :
    ((initFeedbacks st).1).feedbacksCache =
      some ⟨⟨"Stream Enabled", "Indicate if the stream is enabled",
              [streamFieldChoices st], st.nextFnId⟩⟩ ∧
    ((initFeedbacks st).1).nextFnId = st.nextFnId + 1 := by
  simp only [initFeedbacks]
  split
  · next h => exact ⟨h, rfl⟩
  · exact ⟨rfl, rfl⟩

theorem initActions_always_republishes (st : InstanceState) :
    ((initActions (initActions st).1).2).length = 1 := by
  have h := initActions_state st
  conv_lhs => rw [initActions]
  rw [if_neg]
  · rfl
  · intro hcontra
    have hc : ((initActions st).1).actionsCache =
        some ⟨⟨"Enable Stream", "Enable Stream",
                [streamFieldChoices (initActions st).1, onOffToggleChoices],
                ((initActions st).1).nextFnId⟩,
              ⟨"Enable Platform", "Enable Platform",
                [((initActions st).1).platformsDropdown, onOffToggleChoices],
                ((initActions st).1).nextFnId + 1⟩⟩ := hcontra
    rw [h.1, h.2] at hc
    have := congrArg (fun o => (o.map (fun v => v.enableStream.callbackId)).getD 0) hc
    simp at this

theorem initFeedbacks_always_republishes (st : InstanceState) :
    ((initFeedbacks (initFeedbacks st).1).2).length = 1 := by
  have h := initFeedbacks_state st
  conv_lhs => rw [initFeedbacks]
  rw [if_neg]
  · rfl
  · intro hcontra
    have hc : ((initFeedbacks st).1).feedbacksCache =
        some ⟨⟨"Stream Enabled", "Indicate if the stream is enabled",
                [streamFieldChoices (initFeedbacks st).1],
                ((initFeedbacks st).1).nextFnId⟩⟩ := hcontra
    rw [h.1, h.2] at hc
    have := congrArg (fun o => (o.map (fun v => v.streamEnabled.callbackId)).getD 0) hc
    simp at this

theorem pollRebuild_noop (st : InstanceState) (json : LiveStreamsResponse)
    (h1 : st.variableDefinitionsCache = some (rebuildAcc json.docs).variableDefinitions)
    (h2 : st.variableValuesCache = some (rebuildAcc json.docs).variableValues) :
    (pollRebuild st json).2.variableDefsPublished = [] ∧
    (pollRebuild st json).2.variableValsPublished = [] ∧
    (pollRebuild st json).2.actionsPublished = [] ∧
    (pollRebuild st json).2.feedbacksPublished = [] ∧
    (pollRebuild st json).1.variableDefinitionsCache = st.variableDefinitionsCache ∧
    (pollRebuild st json).1.variableValuesCache = st.variableValuesCache := by
  simp only [pollRebuild, publishDefs, publishVals]
  rw [if_pos (show ({ st with
      streams := (rebuildAcc json.docs).streams
      streamsByName := (rebuildAcc json.docs).streamsByName
      platforms := (rebuildAcc json.docs).platforms
      platformsDropdown := (rebuildAcc json.docs).platformsDropdown } :
        InstanceState).variableDefinitionsCache =
      some (rebuildAcc json.docs).variableDefinitions from h1)]
  rw [if_pos (show ({ st with
      streams := (rebuildAcc json.docs).streams
      streamsByName := (rebuildAcc json.docs).streamsByName
      platforms := (rebuildAcc json.docs).platforms
      platformsDropdown := (rebuildAcc json.docs).platformsDropdown } :
        InstanceState).variableValuesCache =
      some (rebuildAcc json.docs).variableValues from h2)]
  exact ⟨rfl, rfl, rfl, rfl, h1.symm ▸ rfl, h2.symm ▸ rfl⟩

/-- Counterexample for C6 as frozen: two consecutive `initActions` runs on
unchanged (empty) source data produce structurally equal action data, yet
both runs publish — the freshly constructed callback closures are compared
by reference by `_.isEqual`, so the second recomputation publishes again
instead of being a no-op. -/
theorem initActions_republishes_unchanged :
    ((initActions initialState).2).map ActionsView.data =
      ((initActions (initActions initialState).1).2).map ActionsView.data ∧
    ((initActions initialState).2).length = 1 ∧
    ((initActions (initActions initialState).1).2).length = 1 := by
  decide

/-- Claim C6 (amended): the variable definitions and variable values
views are deduplicated — a second poll with unchanged source data
publishes neither view (and, through the value gate, neither the action
nor the feedback view) and leaves both caches as they are; the action and
feedback definition views themselves are not deduplicated — because each
recomputation constructs fresh callback closures, which the structural
comparison compares by reference, every recomputation republishes. -/
theorem derived_view_dedup_amended :
    (∀ (st : InstanceState) (docs : List StreamRecord) (s1 s2 : Nat) (t1 t2 : String),
      isOkStatus s1 = true → isOkStatus s2 = true →
      (pollAPI (pollAPI st (FetchOutcome.response s1 t1 ⟨docs⟩)).1
          (FetchOutcome.response s2 t2 ⟨docs⟩)).2.variableDefsPublished = [] ∧
      (pollAPI (pollAPI st (FetchOutcome.response s1 t1 ⟨docs⟩)).1
          (FetchOutcome.response s2 t2 ⟨docs⟩)).2.variableValsPublished = [] ∧
      (pollAPI (pollAPI st (FetchOutcome.response s1 t1 ⟨docs⟩)).1
          (FetchOutcome.response s2 t2 ⟨docs⟩)).2.actionsPublished = [] ∧
      (pollAPI (pollAPI st (FetchOutcome.response s1 t1 ⟨docs⟩)).1
          (FetchOutcome.response s2 t2 ⟨docs⟩)).2.feedbacksPublished = [] ∧
      (pollAPI (pollAPI st (FetchOutcome.response s1 t1 ⟨docs⟩)).1
          (FetchOutcome.response s2 t2 ⟨docs⟩)).1.variableDefinitionsCache =
        (pollAPI st (FetchOutcome.response s1 t1 ⟨docs⟩)).1.variableDefinitionsCache ∧
      (pollAPI (pollAPI st (FetchOutcome.response s1 t1 ⟨docs⟩)).1
          (FetchOutcome.response s2 t2 ⟨docs⟩)).1.variableValuesCache =
        (pollAPI st (FetchOutcome.response s1 t1 ⟨docs⟩)).1.variableValuesCache) ∧
    (∀ st : InstanceState,
      ((initActions (initActions st).1).2).length = 1 ∧
      ((initFeedbacks (initFeedbacks st).1).2).length = 1) := by
  constructor
  · intro st docs s1 s2 t1 t2 h1 h2
    rw [pollAPI_ok_eq st s1 t1 ⟨docs⟩ h1,
      pollAPI_ok_eq (pollRebuild st ⟨docs⟩).1 s2 t2 ⟨docs⟩ h2]
    have hf := pollRebuild_fields st ⟨docs⟩
    have hn := pollRebuild_noop (pollRebuild st ⟨docs⟩).1 ⟨docs⟩
      (by rw [hf.2.2.2.2.1]) (by rw [hf.2.2.2.2.2])
    exact ⟨hn.1, hn.2.1, hn.2.2.1, hn.2.2.2.1,
      by rw [hn.2.2.2.2.1], by rw [hn.2.2.2.2.2]⟩
  · exact fun st =>
      ⟨initActions_always_republishes st, initFeedbacks_always_republishes st⟩

/-- Witness for C6 (amended) at an empty poll response. -/
theorem derived_view_dedup_amended_witness :
    (pollAPI (pollAPI initialState (FetchOutcome.response 200 "OK" ⟨[]⟩)).1
        (FetchOutcome.response 200 "OK" ⟨[]⟩)).2.variableDefsPublished = [] ∧
    ((initActions (initActions initialState).1).2).length = 1 :=
  ⟨(derived_view_dedup_amended.1 initialState [] 200 200 "OK" "OK"
      (by decide) (by decide)).1,
    (derived_view_dedup_amended.2 initialState).1⟩
